import Mathlib

/-
Verification development for the LegalEase document pipeline
(backend/services/ai_analyzer.py, document_storage.py, pdf_processor.py).

Python dicts are modelled as association lists with unique keys kept in
insertion order; datetime instants are modelled as natural numbers; a
function that may raise an exception is modelled with Except or with an
explicit outcome type.  json.loads applied to the extracted span is an
external library call and is modelled by an arbitrary Decoder parameter;
a successful json.loads of a text that starts with an opening brace and
ends with a closing brace always yields a JSON object, so the success
case of a Decoder carries the list of the fields of that object.
-/

/-- JSON values as produced by json.loads. -/
inductive JVal where
  | str (s : String)
  | num (n : Int)
  | bool (b : Bool)
  | null
  | arr (elems : List JVal)
  | obj (fields : List (String × JVal))

/-- A Python dict with string keys and JSON values, in insertion order. -/
abbrev JDict := List (String × JVal)

/-- Python membership test: key in dict. -/
def hasKey (r : JDict) (k : String) : Bool :=
  r.any (fun p => p.1 == k)

/-- Python dict lookup by key (first entry with the key; keys are unique). -/
def dictGet? (r : JDict) (k : String) : Option JVal :=
  (r.find? (fun p => p.1 == k)).map (fun p => p.2)

/-- The opening curly brace character (code 123). -/
def braceOpen : Char := Char.ofNat 123

/-- The closing curly brace character (code 125). -/
def braceClose : Char := Char.ofNat 125

/-- Embeds the regex search for a greedy brace-to-brace span with DOTALL
(ai_analyzer.py lines 218 and 242): the match exists exactly when the first
opening brace occurs strictly before the last closing brace, and the match
is the span from that first opening brace to that last closing brace. -/
def jsonSpan (s : String) : Option String :=
  let cs := s.data
  match cs.findIdx? (fun c => c == braceOpen), cs.reverse.findIdx? (fun c => c == braceClose) with
  | some i, some jr =>
    let j := cs.length - 1 - jr
    if i < j then some (String.mk ((cs.take (j + 1)).drop i)) else none
  | _, _ => none

/-- Models json.loads on the extracted span: either a decode error
(json.JSONDecodeError) or the decoded object given as its field list. -/
abbrev Decoder := String → Except String JDict

/-- Python statement pair: if k not in result, result at k becomes v; for a
dict modelled in insertion order a missing key is appended at the end. -/
def setIfMissing (r : JDict) (k : String) (v : JVal) : JDict :=
  if hasKey r k then r else r ++ [(k, v)]

/-- One iteration of the required-fields loop of _parse_analysis_response
(ai_analyzer.py lines 224-227): a missing field is set to an empty Python
list. -/
def ensureField (r : JDict) (k : String) : JDict :=
  setIfMissing r k (JVal.arr [])

/-- Python slice-and-ellipsis expression of _fallback_parse_analysis
(ai_analyzer.py line 313). -/
def truncate500 (t : String) : String :=
  if t.length > 500 then t.take 500 ++ "..." else t

/-- AIAnalyzer._fallback_parse_analysis (ai_analyzer.py lines 310-323). -/
def fallback_parse_analysis (response_text : String) : JDict :=
  [("summary", JVal.str (truncate500 response_text)),
   ("key_points", JVal.arr
     [JVal.str "Document analysis completed",
      JVal.str "Please review the full response above",
      JVal.str "Contact support if you need clarification"]),
   ("warnings", JVal.arr
     [JVal.str "Analysis format may not be optimal",
      JVal.str "Please verify important details independently"])]

/-- AIAnalyzer._parse_analysis_response (ai_analyzer.py lines 214-236).
The try block catches only json.JSONDecodeError, which is the Decoder
error case; every other path returns normally. -/
def parse_analysis_response (jl : Decoder) (response_text : String) : JDict :=
  match jsonSpan response_text with
  | some span =>
    match jl span with
    | Except.ok result =>
      ensureField (ensureField (ensureField result "summary") "key_points") "warnings"
    | Except.error _ => fallback_parse_analysis response_text
  | none => fallback_parse_analysis response_text

/-- AIAnalyzer._parse_qa_response (ai_analyzer.py lines 238-270).
A decode error lands in the except branch with confidence low; an absent
span lands in the else branch with confidence medium. -/
def parse_qa_response (jl : Decoder) (response_text : String) : JDict :=
  match jsonSpan response_text with
  | some span =>
    match jl span with
    | Except.ok result =>
      setIfMissing
        (setIfMissing
          (setIfMissing result "answer" (JVal.str response_text))
          "source_section" JVal.null)
        "confidence" (JVal.str "medium")
    | Except.error _ =>
      [("answer", JVal.str response_text),
       ("source_section", JVal.null),
       ("confidence", JVal.str "low")]
  | none =>
    [("answer", JVal.str response_text),
     ("source_section", JVal.null),
     ("confidence", JVal.str "medium")]

/-- Outcome of the generation step inside the try block of analyze_document
or answer_question: ok carries the string produced either by
_call_gemini_api (which itself converts every oracle failure, timeout and
malformed payload into an error string) or by the offline mock template;
exn models an exception raised anywhere inside the try block before the
parse call, which the except branch converts into the error dictionary. -/
inductive GenOutcome where
  | ok (response : String)
  | exn (msg : String)

/-- Python expression: filename or "document" (ai_analyzer.py line 64);
None and the empty string are both falsy. -/
def orDefault (filename : Option String) : String :=
  match filename with
  | some f => if f = "" then "document" else f
  | none => "document"

/-- The dictionary returned by the except branch of analyze_document
(ai_analyzer.py lines 98-105). -/
def analysis_error_dict (e : String) : JDict :=
  [("summary", JVal.str "Analysis failed due to technical error"),
   ("key_points", JVal.arr [JVal.str "Unable to analyze document at this time"]),
   ("warnings", JVal.arr [JVal.str "Please try again later or contact support"]),
   ("error", JVal.str e)]

/-- The dictionary returned by the except branch of answer_question
(ai_analyzer.py lines 145-152). -/
def qa_error_dict (e : String) : JDict :=
  [("answer", JVal.str "Unable to answer question due to technical error"),
   ("source_section", JVal.null),
   ("confidence", JVal.str "low"),
   ("error", JVal.str e)]

/-- AIAnalyzer.analyze_document (ai_analyzer.py lines 48-105).  The prompt
template embeds the first 8000 characters of the text and the defaulted
filename; the generation step (API call or mock) is modelled by the gen
parameter applied to those two inputs. -/
def analyze_document (jl : Decoder) (gen : String → String → GenOutcome)
    (text : String) (filename : Option String) : JDict :=
  match gen (text.take 8000) (orDefault filename) with
  | GenOutcome.ok analysis_text => parse_analysis_response jl analysis_text
  | GenOutcome.exn e => analysis_error_dict e

/-- AIAnalyzer.answer_question (ai_analyzer.py lines 107-152). -/
def answer_question (jl : Decoder) (gen : String → String → GenOutcome)
    (document_text : String) (question : String) : JDict :=
  match gen (document_text.take 8000) question with
  | GenOutcome.ok answer_text => parse_qa_response jl answer_text
  | GenOutcome.exn e => qa_error_dict e

/-- Shape of the parsed 200-status response body as _call_gemini_api
inspects it (ai_analyzer.py lines 293-301): the expected nesting with the
generated text, a candidates list whose first element lacks the
content/parts shape, or a body without a non-empty candidates list. -/
inductive GeminiBody where
  | text (s : String)
  | badShape
  | noCandidates

/-- Outcome of the HTTP call made by _call_gemini_api: exn is any
exception raised inside its try block (timeout, connection failure, body
decode failure, missing parts index), resp is a completed response with
its status code and, when the status is 200, the inspected body shape. -/
inductive HttpOutcome where
  | exn (msg : String)
  | resp (status : Nat) (body : GeminiBody)

/-- AIAnalyzer._call_gemini_api (ai_analyzer.py lines 272-308): every
oracle failure - raised exception, non-200 status, missing candidates,
malformed nesting - is converted into a returned "Error: ..." string;
the function never raises. -/
def call_gemini_api (h : HttpOutcome) : String :=
  match h with
  | HttpOutcome.exn msg => "Error: " ++ msg
  | HttpOutcome.resp status body =>
    if status = 200 then
      match body with
      | GeminiBody.text s => s
      | GeminiBody.badShape => "Error: Unexpected response format"
      | GeminiBody.noCandidates => "Error: No response generated"
    else
      "Error: API call failed (" ++ toString status ++ ")"

/-- One stored document record (document_storage.py lines 37-43). -/
structure StoredDoc where
  text : String
  filename : Option String
  created_at : Nat
  expires_at : Nat
  analysis_result : Option JDict

/-- DocumentStorage state: the documents dict as an association list with
unique keys in insertion order, plus the configured session timeout. -/
structure DocumentStorage where
  documents : List (String × StoredDoc)
  session_timeout : Nat

/-- Lookup in the documents dict. -/
def docGet? (l : List (String × StoredDoc)) (k : String) : Option StoredDoc :=
  (l.find? (fun p => p.1 == k)).map (fun p => p.2)

/-- Python del on the documents dict: removes the entry with the key. -/
def docDel (l : List (String × StoredDoc)) (k : String) : List (String × StoredDoc) :=
  l.filter (fun p => !(p.1 == k))

/-- Python dict assignment: replace in place when the key exists, append
otherwise. -/
def docSet (l : List (String × StoredDoc)) (k : String) (v : StoredDoc) :
    List (String × StoredDoc) :=
  if l.any (fun p => p.1 == k) then
    l.map (fun p => if p.1 == k then (p.1, v) else p)
  else l ++ [(k, v)]

/-- DocumentStorage.store_document (document_storage.py lines 21-45).
The source reads the clock twice: once for expires_at (line 34, before the
lock) and once for created_at (line 40, inside the lock); now1 and now2
are those two readings in order.  The generated uuid is the document_id
argument. -/
def store_document (st : DocumentStorage) (document_id : String)
    (now1 now2 : Nat) (text : String) (filename : Option String) :
    String × DocumentStorage :=
  let expires_at := now1 + st.session_timeout
  let doc : StoredDoc :=
    { text := text, filename := filename, created_at := now2,
      expires_at := expires_at, analysis_result := none }
  (document_id, { st with documents := docSet st.documents document_id doc })

/-- DocumentStorage.get_document (document_storage.py lines 47-69); the
returned shallow copy is the record value itself. -/
def get_document (st : DocumentStorage) (now : Nat) (document_id : String) :
    Option StoredDoc × DocumentStorage :=
  match docGet? st.documents document_id with
  | none => (none, st)
  | some document =>
    if now > document.expires_at then
      (none, { st with documents := docDel st.documents document_id })
    else
      (some document, st)

/-- The dict assignment of update_analysis (document_storage.py line 92):
the entry at the key gets its analysis_result replaced, every other entry
is untouched. -/
def updEntry (document_id : String) (analysis_result : JDict)
    (p : String × StoredDoc) : String × StoredDoc :=
  if p.1 == document_id then
    (p.1, { p.2 with analysis_result := some analysis_result })
  else p

/-- DocumentStorage.update_analysis (document_storage.py lines 71-93). -/
def update_analysis (st : DocumentStorage) (now : Nat) (document_id : String)
    (analysis_result : JDict) : Bool × DocumentStorage :=
  match docGet? st.documents document_id with
  | none => (false, st)
  | some document =>
    if now > document.expires_at then
      (false, { st with documents := docDel st.documents document_id })
    else
      (true, { st with documents :=
        st.documents.map (updEntry document_id analysis_result) })

/-- DocumentStorage.cleanup_expired (document_storage.py lines 112-131):
collect the ids of the entries whose expiry is strictly in the past, delete
those ids, return how many ids were collected. -/
def cleanup_expired (st : DocumentStorage) (now : Nat) : Nat × DocumentStorage :=
  let expired_ids :=
    (st.documents.filter (fun p => decide (now > p.2.expires_at))).map (fun p => p.1)
  (expired_ids.length,
   { st with documents := st.documents.filter (fun p => !(decide (p.1 ∈ expired_ids))) })

/-- Result of page.extract_text() on one page: a string, None, or a raised
library exception (caught and skipped by the per-page try). -/
inductive PageOutcome where
  | txt (s : String)
  | noText
  | err (msg : String)

/-- Result of opening the byte stream with one extraction library: the page
list, or a raised exception. -/
inductive PdfOpenResult where
  | ok (pages : List PageOutcome)
  | corrupt (msg : String)

/-- One PDF input as seen by the two extraction libraries. -/
structure PdfFile where
  plumber : PdfOpenResult
  pypdf : PdfOpenResult

/-- Python truthiness of the per-page extraction result. -/
def pageHasText (p : PageOutcome) : Bool :=
  match p with
  | PageOutcome.txt s => s != ""
  | _ => false

/-- The extracted string of a page (empty when absent). -/
def pageTextOf (p : PageOutcome) : String :=
  match p with
  | PageOutcome.txt s => s
  | _ => ""

/-- The block appended for page number n (pdf_processor.py line 89). -/
def pageBlock (n : Nat) (s : String) : String :=
  "--- Page " ++ toString n ++ " ---\n" ++ s ++ "\n"

/-- The page loop of the extraction strategies (pdf_processor.py lines
83-95): n pages were already consumed, so the head is source page n+1; a
page with no truthy text or with a raised per-page exception is skipped. -/
def collectBlocks : List PageOutcome → Nat → List String
  | [], _ => []
  | p :: rest, n =>
    if pageHasText p then pageBlock (n + 1) (pageTextOf p) :: collectBlocks rest (n + 1)
    else collectBlocks rest (n + 1)

/-- The page cap (pdf_processor.py line 17). -/
def maxPages : Nat := 50

/-- The minimum accepted stripped text length (pdf_processor.py line 18). -/
def minTextLength : Nat := 10

/-- Python str.strip(): drop whitespace from both ends (modelled on the
character list). -/
def pyStrip (s : String) : String :=
  String.mk (((s.data.dropWhile Char.isWhitespace).reverse.dropWhile
    Char.isWhitespace).reverse)

/-- PDFProcessor._extract_with_pdfplumber (pdf_processor.py lines 60-106):
process at most maxPages pages, join the blocks with a newline, fail when
the stripped result is shorter than minTextLength. -/
def extract_with_pdfplumber (v : PdfOpenResult) : Bool × String × Option String :=
  match v with
  | PdfOpenResult.corrupt m => (false, "", some ("pdfplumber error: " ++ m))
  | PdfOpenResult.ok pages =>
    let full_text := String.intercalate "\n" (collectBlocks (pages.take maxPages) 0)
    if (pyStrip full_text).length < minTextLength then
      (false, "", some "No readable text found in PDF")
    else
      (true, full_text, none)

/-- PDFProcessor._extract_with_pypdf2 (pdf_processor.py lines 108-154):
identical loop, different library and error prefix. -/
def extract_with_pypdf2 (v : PdfOpenResult) : Bool × String × Option String :=
  match v with
  | PdfOpenResult.corrupt m => (false, "", some ("PyPDF2 error: " ++ m))
  | PdfOpenResult.ok pages =>
    let full_text := String.intercalate "\n" (collectBlocks (pages.take maxPages) 0)
    if (pyStrip full_text).length < minTextLength then
      (false, "", some "No readable text found in PDF")
    else
      (true, full_text, none)

/-- Python expression: error or a default string, where an empty error
string is falsy. -/
def orElseMsg (e : Option String) (d : String) : String :=
  match e with
  | some m => if m = "" then d else m
  | none => d

/-- PDFProcessor.extract_text (pdf_processor.py lines 20-58): the
file-like entry point.  Every branch returns a triple; the outer except
also returns a triple, and both strategies already catch their own
exceptions, so no exception escapes. -/
def extract_text (f : PdfFile) : Bool × String × Option String :=
  let r1 := extract_with_pdfplumber f.plumber
  if r1.1 ∧ minTextLength ≤ (pyStrip r1.2.1).length then (true, r1.2.1, none)
  else
    let r2 := extract_with_pypdf2 f.pypdf
    if r2.1 ∧ minTextLength ≤ (pyStrip r2.2.1).length then (true, r2.2.1, none)
    else if (pyStrip r2.2.1).length < minTextLength then
      (false, "", some "Document appears to be empty or contains only images")
    else
      (false, "", some (orElseMsg r2.2.2 "Failed to extract text from PDF"))

/-- One strategy attempt inside extract_text_from_bytes (pdf_processor.py
lines 170-222): its own try swallows an open failure; the extracted text
is returned only when the stripped length reaches the threshold, and
otherwise control falls through to the next attempt. -/
def bytesAttempt (v : PdfOpenResult) : Option String :=
  match v with
  | PdfOpenResult.corrupt _ => none
  | PdfOpenResult.ok pages =>
    let full_text := String.intercalate "\n" (collectBlocks (pages.take maxPages) 0)
    if minTextLength ≤ (pyStrip full_text).length then some full_text else none

/-- PDFProcessor.extract_text_from_bytes (pdf_processor.py lines 156-229):
the raw-bytes entry point.  On success it returns the text directly; when
both attempts fail it raises, and the outer except re-raises with the
wrapped message, so failure is an exception (Except.error), not a triple. -/
def extract_text_from_bytes (f : PdfFile) : Except String String :=
  match bytesAttempt f.plumber with
  | some t => Except.ok t
  | none =>
    match bytesAttempt f.pypdf with
    | some t => Except.ok t
    | none =>
      Except.error
        "Failed to extract text from PDF: Document appears to be empty or contains only images"

/-- Whether index i of the page list is an extractable page: the page
exists and its extracted text is truthy. -/
def isExtractableAt (pages : List PageOutcome) (i : Nat) : Bool :=
  match pages[i]? with
  | some p => pageHasText p
  | none => false

/-- The extracted string at index i of the page list. -/
def pageTextAt (pages : List PageOutcome) (i : Nat) : String :=
  match pages[i]? with
  | some p => pageTextOf p
  | none => ""

/-- Number of occurrences of a needle in a haystack, counted at every
position (the page marker cannot overlap itself). -/
def countOccurrences (needle : List Char) (hay : List Char) : Nat :=
  hay.tails.countP (fun t => needle.isPrefixOf t)

theorem hasKey_append (l l' : JDict) (k : String) :
    hasKey (l ++ l') k = (hasKey l k || hasKey l' k) := by
  simp [hasKey, List.any_append]

theorem dictGet?_append_left (l l' : JDict) (k : String) (h : hasKey l k = true) :
    dictGet? (l ++ l') k = dictGet? l k := by
  induction l with
  | nil => simp [hasKey] at h
  | cons p t ih =>
    by_cases hp : (p.1 == k) = true
    · simp [dictGet?, List.find?_cons_of_pos, hp]
    · have ht : hasKey t k = true := by
        simp only [hasKey, List.any_cons, Bool.or_eq_true] at h
        cases h with
        | inl h1 => exact absurd h1 hp
        | inr h2 => exact h2
      have hrec := ih ht
      simpa [dictGet?, List.find?_cons_of_neg, hp] using hrec

theorem dictGet?_append_right (l l' : JDict) (k : String) (h : hasKey l k = false) :
    dictGet? (l ++ l') k = dictGet? l' k := by
  induction l with
  | nil => simp
  | cons p t ih =>
    simp only [hasKey, List.any_cons, Bool.or_eq_false_iff] at h
    have hrec := ih (by simpa [hasKey] using h.2)
    simpa [dictGet?, List.find?_cons_of_neg, h.1] using hrec

theorem prefix_setIfMissing (r : JDict) (k : String) (v : JVal) :
    r <+: setIfMissing r k v := by
  unfold setIfMissing
  split
  · exact List.prefix_rfl
  · exact ⟨[(k, v)], rfl⟩

theorem hasKey_setIfMissing_self (r : JDict) (k : String) (v : JVal) :
    hasKey (setIfMissing r k v) k = true := by
  unfold setIfMissing
  split
  · next h => exact h
  · simp [hasKey_append, hasKey]

theorem hasKey_setIfMissing_of (r : JDict) (k k' : String) (v : JVal)
    (h : hasKey r k = true) : hasKey (setIfMissing r k' v) k = true := by
  unfold setIfMissing
  split
  · exact h
  · simp [hasKey_append, h]

theorem hasKey_setIfMissing_ne (r : JDict) (k k' : String) (v : JVal)
    (hne : k ≠ k') : hasKey (setIfMissing r k' v) k = hasKey r k := by
  unfold setIfMissing
  split
  · rfl
  · simp [hasKey_append, hasKey, beq_eq_false_iff_ne.mpr (Ne.symm hne)]

theorem dictGet?_setIfMissing_of (r : JDict) (k k' : String) (v : JVal)
    (h : hasKey r k = true) :
    dictGet? (setIfMissing r k' v) k = dictGet? r k := by
  unfold setIfMissing
  split
  · rfl
  · exact dictGet?_append_left r _ k h

theorem dictGet?_setIfMissing_self_of_not (r : JDict) (k : String) (v : JVal)
    (h : hasKey r k = false) :
    dictGet? (setIfMissing r k v) k = some v := by
  unfold setIfMissing
  split
  · next h' => rw [h] at h'; exact absurd h' (by simp)
  · rw [dictGet?_append_right r _ k h]
    simp [dictGet?]

theorem parse_analysis_keys (jl : Decoder) (t : String) :
    hasKey (parse_analysis_response jl t) "summary" = true ∧
    hasKey (parse_analysis_response jl t) "key_points" = true ∧
    hasKey (parse_analysis_response jl t) "warnings" = true := by
  cases hsp : jsonSpan t with
  | none =>
    rw [show parse_analysis_response jl t = fallback_parse_analysis t by
      simp [parse_analysis_response, hsp]]
    exact ⟨rfl, rfl, rfl⟩
  | some span =>
    cases hjl : jl span with
    | error e =>
      rw [show parse_analysis_response jl t = fallback_parse_analysis t by
        simp [parse_analysis_response, hsp, hjl]]
      exact ⟨rfl, rfl, rfl⟩
    | ok obj =>
      rw [show parse_analysis_response jl t =
          ensureField (ensureField (ensureField obj "summary") "key_points") "warnings" by
        simp [parse_analysis_response, hsp, hjl]]
      simp only [ensureField]
      refine ⟨?_, ?_, ?_⟩
      · exact hasKey_setIfMissing_of _ _ _ _
          (hasKey_setIfMissing_of _ _ _ _ (hasKey_setIfMissing_self _ _ _))
      · exact hasKey_setIfMissing_of _ _ _ _ (hasKey_setIfMissing_self _ _ _)
      · exact hasKey_setIfMissing_self _ _ _

theorem parse_qa_keys (jl : Decoder) (t : String) :
    hasKey (parse_qa_response jl t) "answer" = true ∧
    hasKey (parse_qa_response jl t) "source_section" = true ∧
    hasKey (parse_qa_response jl t) "confidence" = true := by
  cases hsp : jsonSpan t with
  | none =>
    rw [show parse_qa_response jl t =
        [("answer", JVal.str t), ("source_section", JVal.null),
         ("confidence", JVal.str "medium")] by
      simp [parse_qa_response, hsp]]
    exact ⟨rfl, rfl, rfl⟩
  | some span =>
    cases hjl : jl span with
    | error e =>
      rw [show parse_qa_response jl t =
          [("answer", JVal.str t), ("source_section", JVal.null),
           ("confidence", JVal.str "low")] by
        simp [parse_qa_response, hsp, hjl]]
      exact ⟨rfl, rfl, rfl⟩
    | ok obj =>
      rw [show parse_qa_response jl t =
          setIfMissing
            (setIfMissing (setIfMissing obj "answer" (JVal.str t))
              "source_section" JVal.null)
            "confidence" (JVal.str "medium") by
        simp [parse_qa_response, hsp, hjl]]
      refine ⟨?_, ?_, ?_⟩
      · exact hasKey_setIfMissing_of _ _ _ _
          (hasKey_setIfMissing_of _ _ _ _ (hasKey_setIfMissing_self _ _ _))
      · exact hasKey_setIfMissing_of _ _ _ _ (hasKey_setIfMissing_self _ _ _)
      · exact hasKey_setIfMissing_self _ _ _

/-- C1 (amended): analyze_document and answer_question never raise and
always return a well-formed dictionary carrying all expected keys, for
every text, filename, question and oracle behavior.  But the dictionary
carries an error field only when an exception is raised inside their own
try blocks (the exn case, which returns the fixed caller-safe defaults
together with the error field); the oracle failures the claim enumerates
- unreachable, timeout, malformed payload - are converted by
_call_gemini_api into returned "Error: ..." strings, and such brace-free
responses produce the fallback result WITHOUT an error field (likewise
when a brace span exists but fails decode). -/
theorem analyze_answer_wellformed_error_only_on_raise (jl : Decoder)
    (genA genB : String → String → GenOutcome) (text : String)
    (filename : Option String) (question : String) :
    (hasKey (analyze_document jl genA text filename) "summary" = true ∧
     hasKey (analyze_document jl genA text filename) "key_points" = true ∧
     hasKey (analyze_document jl genA text filename) "warnings" = true) ∧
    (hasKey (answer_question jl genB text question) "answer" = true ∧
     hasKey (answer_question jl genB text question) "source_section" = true ∧
     hasKey (answer_question jl genB text question) "confidence" = true) ∧
    (∀ e, genA (text.take 8000) (orDefault filename) = GenOutcome.exn e →
      analyze_document jl genA text filename = analysis_error_dict e ∧
      dictGet? (analysis_error_dict e) "error" = some (JVal.str e) ∧
      dictGet? (analysis_error_dict e) "summary" =
        some (JVal.str "Analysis failed due to technical error") ∧
      dictGet? (analysis_error_dict e) "key_points" =
        some (JVal.arr [JVal.str "Unable to analyze document at this time"]) ∧
      dictGet? (analysis_error_dict e) "warnings" =
        some (JVal.arr [JVal.str "Please try again later or contact support"])) ∧
    (∀ e, genB (text.take 8000) question = GenOutcome.exn e →
      answer_question jl genB text question = qa_error_dict e ∧
      dictGet? (qa_error_dict e) "error" = some (JVal.str e) ∧
      dictGet? (qa_error_dict e) "answer" =
        some (JVal.str "Unable to answer question due to technical error") ∧
      dictGet? (qa_error_dict e) "confidence" = some (JVal.str "low")) ∧
    (∀ t, genA (text.take 8000) (orDefault filename) = GenOutcome.ok t →
      jsonSpan t = none →
      hasKey (analyze_document jl genA text filename) "error" = false) ∧
    (∀ t sp er, genA (text.take 8000) (orDefault filename) = GenOutcome.ok t →
      jsonSpan t = some sp → jl sp = Except.error er →
      hasKey (analyze_document jl genA text filename) "error" = false) ∧
    (∀ t, genB (text.take 8000) question = GenOutcome.ok t →
      jsonSpan t = none →
      hasKey (answer_question jl genB text question) "error" = false) ∧
    (∀ t sp er, genB (text.take 8000) question = GenOutcome.ok t →
      jsonSpan t = some sp → jl sp = Except.error er →
      hasKey (answer_question jl genB text question) "error" = false) := by
  refine ⟨?_, ?_, ?_, ?_, ?_, ?_, ?_, ?_⟩
  · cases hg : genA (text.take 8000) (orDefault filename) with
    | ok t =>
      rw [show analyze_document jl genA text filename = parse_analysis_response jl t by
        simp [analyze_document, hg]]
      exact parse_analysis_keys jl t
    | exn e =>
      rw [show analyze_document jl genA text filename = analysis_error_dict e by
        simp [analyze_document, hg]]
      exact ⟨rfl, rfl, rfl⟩
  · cases hg : genB (text.take 8000) question with
    | ok t =>
      rw [show answer_question jl genB text question = parse_qa_response jl t by
        simp [answer_question, hg]]
      exact parse_qa_keys jl t
    | exn e =>
      rw [show answer_question jl genB text question = qa_error_dict e by
        simp [answer_question, hg]]
      exact ⟨rfl, rfl, rfl⟩
  · intro e hg
    refine ⟨?_, rfl, rfl, rfl, rfl⟩
    simp [analyze_document, hg]
  · intro e hg
    refine ⟨?_, rfl, rfl, rfl⟩
    simp [answer_question, hg]
  · intro t hg hsp
    rw [show analyze_document jl genA text filename = fallback_parse_analysis t by
      simp [analyze_document, hg, parse_analysis_response, hsp]]
    rfl
  · intro t sp er hg hsp hjl
    rw [show analyze_document jl genA text filename = fallback_parse_analysis t by
      simp [analyze_document, hg, parse_analysis_response, hsp, hjl]]
    rfl
  · intro t hg hsp
    rw [show answer_question jl genB text question =
        [("answer", JVal.str t), ("source_section", JVal.null),
         ("confidence", JVal.str "medium")] by
      simp [answer_question, hg, parse_qa_response, hsp]]
    rfl
  · intro t sp er hg hsp hjl
    rw [show answer_question jl genB text question =
        [("answer", JVal.str t), ("source_section", JVal.null),
         ("confidence", JVal.str "low")] by
      simp [answer_question, hg, parse_qa_response, hsp, hjl]]
    rfl

/-- Witness for C1 (amended) at a concrete raised exception and at a
concrete converted oracle-failure string. -/
theorem analyze_answer_wellformed_error_only_on_raise_witness :
    analyze_document (fun _ => Except.error "bad") (fun _ _ => GenOutcome.exn "boom")
      "some text" none = analysis_error_dict "boom" ∧
    answer_question (fun _ => Except.error "bad") (fun _ _ => GenOutcome.exn "boom")
      "some text" "a question" = qa_error_dict "boom" ∧
    hasKey (analyze_document (fun _ => Except.error "bad")
      (fun _ _ => GenOutcome.ok "Error: timeout") "some text" none) "error" = false := by
  have h1 := analyze_answer_wellformed_error_only_on_raise
    (fun _ => Except.error "bad")
    (fun _ _ => GenOutcome.exn "boom") (fun _ _ => GenOutcome.exn "boom")
    "some text" none "a question"
  have h2 := analyze_answer_wellformed_error_only_on_raise
    (fun _ => Except.error "bad")
    (fun _ _ => GenOutcome.ok "Error: timeout")
    (fun _ _ => GenOutcome.ok "Error: timeout")
    "some text" none "a question"
  exact ⟨(h1.2.2.1 "boom" rfl).1, (h1.2.2.2.1 "boom" rfl).1,
    h2.2.2.2.2.1 "Error: timeout" rfl rfl⟩

/-- Counterexample for C1 as stated: the oracle failures the claim
enumerates never reach the except branch.  A non-200 status and a raised
timeout are converted by _call_gemini_api into returned "Error: ..."
strings, and on those analyze_document and answer_question return the
fallback dictionary with NO error field. -/
theorem analyze_oracle_failure_lacks_error_field :
    call_gemini_api (HttpOutcome.resp 500 GeminiBody.noCandidates) =
      "Error: API call failed (500)" ∧
    call_gemini_api (HttpOutcome.exn "timed out") = "Error: timed out" ∧
    hasKey
      (analyze_document (fun _ => Except.error "no json")
        (fun _ _ => GenOutcome.ok
          (call_gemini_api (HttpOutcome.resp 500 GeminiBody.noCandidates)))
        "doc text" none) "error" = false ∧
    hasKey
      (answer_question (fun _ => Except.error "no json")
        (fun _ _ => GenOutcome.ok
          (call_gemini_api (HttpOutcome.exn "timed out")))
        "doc text" "what") "error" = false := by
  exact ⟨rfl, rfl, rfl, rfl⟩

/-- C4 (amended): when structured decode of the extracted span succeeds in
analyze_document, every one of summary, key_points, warnings that is
missing from the decoded object is defaulted to an empty Python list
(including summary, which therefore receives an empty sequence, not an
empty string), no provided key is dropped or renamed, and a response
missing only the warnings key yields an empty warnings sequence. -/
theorem parse_analysis_decode_success_defaults (jl : Decoder) (t span : String)
    (obj : JDict) (hsp : jsonSpan t = some span) (hjl : jl span = Except.ok obj) :
    obj <+: parse_analysis_response jl t ∧
    (∀ k, hasKey obj k = true →
      dictGet? (parse_analysis_response jl t) k = dictGet? obj k) ∧
    (hasKey obj "summary" = false →
      dictGet? (parse_analysis_response jl t) "summary" = some (JVal.arr [])) ∧
    (hasKey obj "key_points" = false →
      dictGet? (parse_analysis_response jl t) "key_points" = some (JVal.arr [])) ∧
    (hasKey obj "warnings" = false →
      dictGet? (parse_analysis_response jl t) "warnings" = some (JVal.arr [])) := by
  have hr : parse_analysis_response jl t =
      setIfMissing (setIfMissing (setIfMissing obj "summary" (JVal.arr []))
        "key_points" (JVal.arr [])) "warnings" (JVal.arr []) := by
    simp [parse_analysis_response, hsp, hjl, ensureField]
  rw [hr]
  refine ⟨?_, ?_, ?_, ?_, ?_⟩
  · exact ((prefix_setIfMissing _ _ _).trans
      (prefix_setIfMissing _ _ _)).trans (prefix_setIfMissing _ _ _)
  · intro k hk
    have h1 : hasKey (setIfMissing obj "summary" (JVal.arr [])) k = true :=
      hasKey_setIfMissing_of _ _ _ _ hk
    have h2 : hasKey (setIfMissing (setIfMissing obj "summary" (JVal.arr []))
        "key_points" (JVal.arr [])) k = true :=
      hasKey_setIfMissing_of _ _ _ _ h1
    rw [dictGet?_setIfMissing_of _ _ _ _ h2, dictGet?_setIfMissing_of _ _ _ _ h1,
      dictGet?_setIfMissing_of _ _ _ _ hk]
  · intro h
    have g1 : dictGet? (setIfMissing obj "summary" (JVal.arr [])) "summary" =
        some (JVal.arr []) := dictGet?_setIfMissing_self_of_not _ _ _ h
    have h1 : hasKey (setIfMissing obj "summary" (JVal.arr [])) "summary" = true :=
      hasKey_setIfMissing_self _ _ _
    have h2 : hasKey (setIfMissing (setIfMissing obj "summary" (JVal.arr []))
        "key_points" (JVal.arr [])) "summary" = true :=
      hasKey_setIfMissing_of _ _ _ _ h1
    rw [dictGet?_setIfMissing_of _ _ _ _ h2, dictGet?_setIfMissing_of _ _ _ _ h1, g1]
  · intro h
    have h1 : hasKey (setIfMissing obj "summary" (JVal.arr [])) "key_points" = false := by
      rw [hasKey_setIfMissing_ne _ _ _ _ (by decide), h]
    have g1 : dictGet? (setIfMissing (setIfMissing obj "summary" (JVal.arr []))
        "key_points" (JVal.arr [])) "key_points" = some (JVal.arr []) :=
      dictGet?_setIfMissing_self_of_not _ _ _ h1
    have h2 : hasKey (setIfMissing (setIfMissing obj "summary" (JVal.arr []))
        "key_points" (JVal.arr [])) "key_points" = true :=
      hasKey_setIfMissing_self _ _ _
    rw [dictGet?_setIfMissing_of _ _ _ _ h2, g1]
  · intro h
    have h1 : hasKey (setIfMissing obj "summary" (JVal.arr [])) "warnings" = false := by
      rw [hasKey_setIfMissing_ne _ _ _ _ (by decide), h]
    have h2 : hasKey (setIfMissing (setIfMissing obj "summary" (JVal.arr []))
        "key_points" (JVal.arr [])) "warnings" = false := by
      rw [hasKey_setIfMissing_ne _ _ _ _ (by decide), h1]
    exact dictGet?_setIfMissing_self_of_not _ _ _ h2

/-- Counterexample for C4 as stated: for the real oracle response text
consisting of a JSON object that provides only key_points, json.loads
yields an object without summary, and the defaulted summary value is the
empty list, not the empty string. -/
theorem parse_analysis_summary_default_is_list :
    dictGet?
      (parse_analysis_response
        (fun s => if s = "\x7b\"key_points\": []\x7d"
          then Except.ok [("key_points", JVal.arr [])]
          else Except.error "json decode error")
        "\x7b\"key_points\": []\x7d")
      "summary" = some (JVal.arr []) ∧
    (∀ s, JVal.arr [] ≠ JVal.str s) := by
  refine ⟨rfl, ?_⟩
  intro s h
  exact JVal.noConfusion h

/-- Witness for C4 (amended) at a concrete decode success missing the
warnings key. -/
theorem parse_analysis_decode_success_defaults_witness :
    dictGet?
      (parse_analysis_response
        (fun s => if s = "\x7b\"summary\": \"ok\"\x7d"
          then Except.ok [("summary", JVal.str "ok")]
          else Except.error "json decode error")
        "\x7b\"summary\": \"ok\"\x7d")
      "warnings" = some (JVal.arr []) := by
  have h := parse_analysis_decode_success_defaults
    (fun s => if s = "\x7b\"summary\": \"ok\"\x7d"
      then Except.ok [("summary", JVal.str "ok")]
      else Except.error "json decode error")
    "\x7b\"summary\": \"ok\"\x7d" "\x7b\"summary\": \"ok\"\x7d"
    [("summary", JVal.str "ok")] rfl rfl
  exact h.2.2.2.2 rfl

/-- C5 (amended): when the extracted span fails structured decode,
answer_question returns the raw response text verbatim as the answer with
confidence low; when no span is found at all, it returns the raw text
verbatim with confidence medium, not low. -/
theorem answer_question_fallback_paths (jl : Decoder)
    (gen : String → String → GenOutcome) (text question t : String)
    (hg : gen (text.take 8000) question = GenOutcome.ok t) :
    (jsonSpan t = none →
      answer_question jl gen text question =
        [("answer", JVal.str t), ("source_section", JVal.null),
         ("confidence", JVal.str "medium")]) ∧
    (∀ span e, jsonSpan t = some span → jl span = Except.error e →
      answer_question jl gen text question =
        [("answer", JVal.str t), ("source_section", JVal.null),
         ("confidence", JVal.str "low")]) := by
  constructor
  · intro hsp
    simp [answer_question, hg, parse_qa_response, hsp]
  · intro span e hsp hjl
    simp [answer_question, hg, parse_qa_response, hsp, hjl]

/-- Counterexample for C5 as stated: an oracle response with no brace span
gets confidence medium, not low. -/
theorem answer_question_no_span_confidence_medium :
    dictGet?
      (answer_question (fun _ => Except.error "nope")
        (fun _ _ => GenOutcome.ok "hello there") "doc text" "what") "confidence" =
      some (JVal.str "medium") ∧
    JVal.str "medium" ≠ JVal.str "low" := by
  refine ⟨rfl, ?_⟩
  intro h
  injection h with h1
  exact absurd h1 (by decide)

/-- Witness for C5 (amended) at a concrete decode failure. -/
theorem answer_question_fallback_paths_witness :
    answer_question (fun _ => Except.error "json decode error")
      (fun _ _ => GenOutcome.ok "\x7bbad json\x7d") "doc text" "what" =
      [("answer", JVal.str "\x7bbad json\x7d"), ("source_section", JVal.null),
       ("confidence", JVal.str "low")] := by
  have h := answer_question_fallback_paths (fun _ => Except.error "json decode error")
    (fun _ _ => GenOutcome.ok "\x7bbad json\x7d") "doc text" "what" "\x7bbad json\x7d" rfl
  exact h.2 "\x7bbad json\x7d" "json decode error" rfl rfl

/-- C6 (amended): for every oracle response text containing no brace span,
analyze_document returns the fallback dictionary: key_points and warnings
are fixed non-empty sequences, and summary is the raw response text
(truncated with an ellipsis beyond 500 characters), which is non-empty
whenever the raw response is non-empty but is empty for an empty raw
response; the call never raises. -/
theorem analyze_document_no_span_fallback (jl : Decoder)
    (gen : String → String → GenOutcome) (text : String) (filename : Option String)
    (t : String) (hg : gen (text.take 8000) (orDefault filename) = GenOutcome.ok t)
    (hsp : jsonSpan t = none) :
    dictGet? (analyze_document jl gen text filename) "summary" =
      some (JVal.str (truncate500 t)) ∧
    (t ≠ "" → truncate500 t ≠ "") ∧
    dictGet? (analyze_document jl gen text filename) "key_points" =
      some (JVal.arr [JVal.str "Document analysis completed",
        JVal.str "Please review the full response above",
        JVal.str "Contact support if you need clarification"]) ∧
    dictGet? (analyze_document jl gen text filename) "warnings" =
      some (JVal.arr [JVal.str "Analysis format may not be optimal",
        JVal.str "Please verify important details independently"]) := by
  have hr : analyze_document jl gen text filename = fallback_parse_analysis t := by
    simp [analyze_document, hg, parse_analysis_response, hsp]
  rw [hr]
  refine ⟨rfl, ?_, rfl, rfl⟩
  intro hne
  unfold truncate500
  split
  · intro h
    have := congrArg String.length h
    simp [String.length_append] at this
    exact absurd this.2 (by decide)
  · exact hne

/-- Counterexample for C6 as stated: the empty oracle response has no brace
span, and the returned summary is the empty string, not a non-empty one. -/
theorem analyze_document_empty_response_empty_summary :
    ¬ (∃ s, dictGet?
        (analyze_document (fun _ => Except.error "nope")
          (fun _ _ => GenOutcome.ok "") "some document text" none) "summary" =
        some (JVal.str s) ∧ s ≠ "") := by
  rintro ⟨s, hs, hne⟩
  rw [show dictGet?
      (analyze_document (fun _ => Except.error "nope")
        (fun _ _ => GenOutcome.ok "") "some document text" none) "summary" =
      some (JVal.str "") from rfl] at hs
  injection hs with h1
  injection h1 with h2
  exact hne h2.symm

/-- Witness for C6 (amended) at a concrete brace-free oracle response. -/
theorem analyze_document_no_span_fallback_witness :
    dictGet?
      (analyze_document (fun _ => Except.error "nope")
        (fun _ _ => GenOutcome.ok "plain prose answer") "doc body" none)
      "key_points" =
      some (JVal.arr [JVal.str "Document analysis completed",
        JVal.str "Please review the full response above",
        JVal.str "Contact support if you need clarification"]) := by
  have h := analyze_document_no_span_fallback (fun _ => Except.error "nope")
    (fun _ _ => GenOutcome.ok "plain prose answer") "doc body" none
    "plain prose answer" rfl rfl
  exact h.2.2.1

/-- C9 (amended): the confidence field of every AnswerResult is medium or
low, or, when structured decode succeeded and the decoded object itself
supplies a confidence entry, exactly that oracle-provided value passed
through verbatim without validation against the enum. -/
theorem answer_confidence_enum_or_passthrough (jl : Decoder)
    (gen : String → String → GenOutcome) (text question : String) :
    dictGet? (answer_question jl gen text question) "confidence" =
      some (JVal.str "medium") ∨
    dictGet? (answer_question jl gen text question) "confidence" =
      some (JVal.str "low") ∨
    (∃ t span obj, gen (text.take 8000) question = GenOutcome.ok t ∧
      jsonSpan t = some span ∧ jl span = Except.ok obj ∧
      hasKey obj "confidence" = true ∧
      dictGet? (answer_question jl gen text question) "confidence" =
        dictGet? obj "confidence") := by
  cases hg : gen (text.take 8000) question with
  | exn e =>
    right; left
    rw [show answer_question jl gen text question = qa_error_dict e by
      simp [answer_question, hg]]
    rfl
  | ok t =>
    cases hsp : jsonSpan t with
    | none =>
      left
      rw [show answer_question jl gen text question =
          [("answer", JVal.str t), ("source_section", JVal.null),
           ("confidence", JVal.str "medium")] by
        simp [answer_question, hg, parse_qa_response, hsp]]
      rfl
    | some span =>
      cases hjl : jl span with
      | error e =>
        right; left
        rw [show answer_question jl gen text question =
            [("answer", JVal.str t), ("source_section", JVal.null),
             ("confidence", JVal.str "low")] by
          simp [answer_question, hg, parse_qa_response, hsp, hjl]]
        rfl
      | ok obj =>
        have hr : answer_question jl gen text question =
            setIfMissing (setIfMissing (setIfMissing obj "answer" (JVal.str t))
              "source_section" JVal.null) "confidence" (JVal.str "medium") := by
          simp [answer_question, hg, parse_qa_response, hsp, hjl]
        by_cases hconf : hasKey obj "confidence" = true
        · right; right
          refine ⟨t, span, obj, rfl, hsp, hjl, hconf, ?_⟩
          rw [hr]
          have h1 : hasKey (setIfMissing obj "answer" (JVal.str t)) "confidence" = true :=
            hasKey_setIfMissing_of _ _ _ _ hconf
          have h2 : hasKey (setIfMissing (setIfMissing obj "answer" (JVal.str t))
              "source_section" JVal.null) "confidence" = true :=
            hasKey_setIfMissing_of _ _ _ _ h1
          rw [dictGet?_setIfMissing_of _ _ _ _ h2, dictGet?_setIfMissing_of _ _ _ _ h1,
            dictGet?_setIfMissing_of _ _ _ _ hconf]
        · left
          rw [hr]
          have hc : hasKey obj "confidence" = false := by
            simpa using hconf
          have h1 : hasKey (setIfMissing obj "answer" (JVal.str t)) "confidence" = false := by
            rw [hasKey_setIfMissing_ne _ _ _ _ (by decide), hc]
          have h2 : hasKey (setIfMissing (setIfMissing obj "answer" (JVal.str t))
              "source_section" JVal.null) "confidence" = false := by
            rw [hasKey_setIfMissing_ne _ _ _ _ (by decide), h1]
          exact dictGet?_setIfMissing_self_of_not _ _ _ h2

/-- Counterexample for C9 as stated: a well-formed decoded payload whose
confidence value is outside the enum is returned verbatim. -/
theorem answer_confidence_passthrough_counterexample :
    dictGet?
      (answer_question
        (fun s => if s = "\x7b\"answer\": \"yes\", \"confidence\": \"definitely\"\x7d"
          then Except.ok [("answer", JVal.str "yes"),
            ("confidence", JVal.str "definitely")]
          else Except.error "json decode error")
        (fun _ _ =>
          GenOutcome.ok "\x7b\"answer\": \"yes\", \"confidence\": \"definitely\"\x7d")
        "doc" "q") "confidence" = some (JVal.str "definitely") ∧
    JVal.str "definitely" ≠ JVal.str "high" ∧
    JVal.str "definitely" ≠ JVal.str "medium" ∧
    JVal.str "definitely" ≠ JVal.str "low" := by
  refine ⟨rfl, ?_, ?_, ?_⟩ <;>
    { intro h; injection h with h1; exact absurd h1 (by decide) }

theorem docGet?_cons_pos (p : String × StoredDoc) (t : List (String × StoredDoc))
    (k : String) (hp : (p.1 == k) = true) : docGet? (p :: t) k = some p.2 := by
  simp only [docGet?]
  rw [List.find?_cons_of_pos]
  · rfl
  · exact hp

theorem docGet?_cons_neg (p : String × StoredDoc) (t : List (String × StoredDoc))
    (k : String) (hp : (p.1 == k) = false) : docGet? (p :: t) k = docGet? t k := by
  simp only [docGet?]
  rw [List.find?_cons_of_neg]
  simp [hp]

theorem docGet?_map_replace (l : List (String × StoredDoc)) (k : String)
    (v : StoredDoc) (h : l.any (fun p => p.1 == k) = true) :
    docGet? (l.map (fun p => if p.1 == k then (p.1, v) else p)) k = some v := by
  induction l with
  | nil => simp at h
  | cons p t ih =>
    simp only [List.map_cons]
    by_cases hp : (p.1 == k) = true
    · rw [if_pos hp]
      exact docGet?_cons_pos _ _ _ hp
    · have hpf : (p.1 == k) = false := by
        rwa [Bool.not_eq_true] at hp
      have ht : t.any (fun p => p.1 == k) = true := by
        simp only [List.any_cons, Bool.or_eq_true] at h
        cases h with
        | inl h1 => exact absurd h1 hp
        | inr h2 => exact h2
      rw [if_neg hp, docGet?_cons_neg _ _ _ hpf]
      exact ih ht

theorem docGet?_append_right_doc (l l' : List (String × StoredDoc)) (k : String)
    (h : l.any (fun p => p.1 == k) = false) :
    docGet? (l ++ l') k = docGet? l' k := by
  induction l with
  | nil => simp
  | cons p t ih =>
    simp only [List.any_cons, Bool.or_eq_false_iff] at h
    rw [List.cons_append, docGet?_cons_neg _ _ _ h.1]
    exact ih h.2

theorem docGet?_docSet_self (l : List (String × StoredDoc)) (k : String)
    (v : StoredDoc) : docGet? (docSet l k v) k = some v := by
  unfold docSet
  split
  · next h => exact docGet?_map_replace l k v h
  · next h =>
    have hf : l.any (fun p => p.1 == k) = false := by
      rwa [Bool.not_eq_true] at h
    rw [docGet?_append_right_doc l _ k hf]
    exact docGet?_cons_pos _ _ _ (by simp)

theorem updEntry_fst (id : String) (res : JDict) (p : String × StoredDoc) :
    (updEntry id res p).1 = p.1 := by
  unfold updEntry
  split <;> rfl

theorem docGet?_map_upd_ne (l : List (String × StoredDoc)) (id : String)
    (res : JDict) (k : String) (hne : k ≠ id) :
    docGet? (l.map (updEntry id res)) k = docGet? l k := by
  induction l with
  | nil => rfl
  | cons p t ih =>
    simp only [List.map_cons]
    by_cases hpk : (p.1 == k) = true
    · have hup : ((updEntry id res p).1 == k) = true := by
        rw [updEntry_fst]; exact hpk
      rw [docGet?_cons_pos _ _ _ hup, docGet?_cons_pos _ _ _ hpk]
      have hpid : (p.1 == id) = false := by
        have : p.1 = k := by simpa using hpk
        simp [this, hne]
      rw [show updEntry id res p = p by simp [updEntry, hpid]]
    · have hpkf : (p.1 == k) = false := by rwa [Bool.not_eq_true] at hpk
      have hup : ((updEntry id res p).1 == k) = false := by
        rw [updEntry_fst]; exact hpkf
      rw [docGet?_cons_neg _ _ _ hup, docGet?_cons_neg _ _ _ hpkf]
      exact ih

theorem docGet?_map_upd_self (l : List (String × StoredDoc)) (id : String)
    (res : JDict) (old : StoredDoc) (h : docGet? l id = some old) :
    docGet? (l.map (updEntry id res)) id =
      some { old with analysis_result := some res } := by
  induction l with
  | nil => simp [docGet?] at h
  | cons p t ih =>
    simp only [List.map_cons]
    by_cases hp : (p.1 == id) = true
    · have hold : p.2 = old := by
        rw [docGet?_cons_pos _ _ _ hp] at h
        simpa using h
      have hup : ((updEntry id res p).1 == id) = true := by
        rw [updEntry_fst]; exact hp
      rw [docGet?_cons_pos _ _ _ hup]
      rw [show updEntry id res p =
        (p.1, { p.2 with analysis_result := some res }) by simp [updEntry, hp]]
      rw [hold]
    · have hpf : (p.1 == id) = false := by rwa [Bool.not_eq_true] at hp
      have hup : ((updEntry id res p).1 == id) = false := by
        rw [updEntry_fst]; exact hpf
      rw [docGet?_cons_neg _ _ _ hup]
      rw [docGet?_cons_neg _ _ _ hpf] at h
      exact ih h

theorem cleanup_mem_iff (st : DocumentStorage) (now : Nat)
    (hnd : (st.documents.map Prod.fst).Nodup) (p : String × StoredDoc)
    (hp : p ∈ st.documents) :
    p ∈ ((cleanup_expired st now).2).documents ↔ ¬ now > p.2.expires_at := by
  unfold cleanup_expired
  simp only [List.mem_filter, Bool.not_eq_true', decide_eq_false_iff_not]
  constructor
  · rintro ⟨-, hnotin⟩ hgt
    exact hnotin (List.mem_map.mpr
      ⟨p, List.mem_filter.mpr ⟨hp, by simpa using hgt⟩, rfl⟩)
  · intro hngt
    refine ⟨hp, fun hin => ?_⟩
    obtain ⟨q, hqmem, hqk⟩ := List.mem_map.mp hin
    have hq : q ∈ st.documents := (List.mem_filter.mp hqmem).1
    have hqgt : now > q.2.expires_at := by
      have := (List.mem_filter.mp hqmem).2
      simpa using this
    have : q = p := List.inj_on_of_nodup_map hnd hq hp hqk
    rw [this] at hqgt
    exact hngt hqgt

/-- C2 (amended): the boundary instant now equal to expires_at is treated
as NOT expired (the comparison in the source is strict): a document whose
expires_at equals the current time is still returned by get_document, is
still updated by update_analysis, and survives the sweep; the sweep
removes exactly the entries with expires_at strictly less than now. -/
theorem expiry_boundary_treated_unexpired (st : DocumentStorage) (now : Nat)
    (id : String) (doc : StoredDoc) (res : JDict)
    (hnd : (st.documents.map Prod.fst).Nodup)
    (hget : docGet? st.documents id = some doc) (hexp : doc.expires_at = now) :
    get_document st now id = (some doc, st) ∧
    (update_analysis st now id res).1 = true ∧
    (∀ p ∈ st.documents, p.2.expires_at = now →
      p ∈ ((cleanup_expired st now).2).documents) ∧
    (∀ p ∈ st.documents,
      (p ∈ ((cleanup_expired st now).2).documents ↔ ¬ now > p.2.expires_at)) := by
  refine ⟨?_, ?_, ?_, ?_⟩
  · simp [get_document, hget, hexp, lt_self_iff_false]
  · simp [update_analysis, hget, hexp, lt_self_iff_false]
  · intro p hp hpe
    exact (cleanup_mem_iff st now hnd p hp).mpr (by rw [hpe]; exact lt_irrefl now)
  · intro p hp
    exact cleanup_mem_iff st now hnd p hp

/-- Witness for C2 (amended) at a concrete store holding one document
whose expiry equals the current instant. -/
theorem expiry_boundary_treated_unexpired_witness :
    get_document
      ⟨[("d", ⟨"contract text", none, 0, 100, none⟩)], 100⟩ 100 "d" =
      (some ⟨"contract text", none, 0, 100, none⟩,
       ⟨[("d", ⟨"contract text", none, 0, 100, none⟩)], 100⟩) := by
  have h := expiry_boundary_treated_unexpired
    ⟨[("d", ⟨"contract text", none, 0, 100, none⟩)], 100⟩ 100 "d"
    ⟨"contract text", none, 0, 100, none⟩ [] (by simp) rfl rfl
  exact h.1

/-- Counterexample for C2 as stated: at now equal to expires_at the
document does NOT behave as absent (get still returns it, update still
succeeds) and the sweep removes nothing. -/
theorem expiry_boundary_counterexample :
    (get_document
      ⟨[("d", ⟨"text body", none, 0, 100, none⟩)], 3600⟩ 100 "d").1 =
      some ⟨"text body", none, 0, 100, none⟩ ∧
    (update_analysis
      ⟨[("d", ⟨"text body", none, 0, 100, none⟩)], 3600⟩ 100 "d" []).1 = true ∧
    (cleanup_expired
      ⟨[("d", ⟨"text body", none, 0, 100, none⟩)], 3600⟩ 100).1 = 0 := by
  exact ⟨rfl, rfl, rfl⟩

/-- C8 (amended): expires_at is computed from the clock reading taken at
the start of store_document, while created_at comes from a second, later
clock reading; when the two readings coincide (the same instant now), the
stored document satisfies expires_at = created_at + session_timeout. -/
theorem store_document_expiry_single_reading (st : DocumentStorage)
    (id : String) (now : Nat) (text : String) (filename : Option String)
    (doc : StoredDoc)
    (h : docGet? ((store_document st id now now text filename).2).documents id =
      some doc) :
    doc.expires_at = doc.created_at + st.session_timeout ∧
    doc.created_at = now := by
  have h2 : docGet? ((store_document st id now now text filename).2).documents id =
      some { text := text, filename := filename, created_at := now,
             expires_at := now + st.session_timeout, analysis_result := none } := by
    simpa [store_document] using
      docGet?_docSet_self st.documents id
        { text := text, filename := filename, created_at := now,
          expires_at := now + st.session_timeout, analysis_result := none }
  rw [h2] at h
  injection h with h3
  rw [← h3]
  exact ⟨rfl, rfl⟩

/-- Witness for C8 (amended) at a concrete single-reading insertion. -/
theorem store_document_expiry_single_reading_witness :
    (⟨"lease text", none, 7, 67, none⟩ : StoredDoc).expires_at =
      (⟨"lease text", none, 7, 67, none⟩ : StoredDoc).created_at + 60 ∧
    (⟨"lease text", none, 7, 67, none⟩ : StoredDoc).created_at = 7 := by
  exact store_document_expiry_single_reading ⟨[], 60⟩ "a" 7 "lease text" none
    ⟨"lease text", none, 7, 67, none⟩ rfl

/-- Counterexample for C8 as stated: the source reads the clock once for
expires_at (before taking the lock) and again for created_at (inside the
lock); in an execution where the clock advances from 0 to 5 between the
two reads, the stored expires_at is 3600 while created_at plus the
timeout is 3605. -/
theorem store_document_two_clock_reads :
    docGet? ((store_document ⟨[], 3600⟩ "id1" 0 5 "body text" none).2).documents
      "id1" = some ⟨"body text", none, 5, 3600, none⟩ ∧
    (3600 : Nat) ≠ 5 + 3600 := by
  exact ⟨rfl, by decide⟩

/-- C10: whenever update_analysis returns true, the only change to the
store is that the analysis_result field of the addressed document becomes
the given result: the timeout configuration, the key sequence, and every
other document are unchanged, and the addressed document keeps its text,
filename, created_at and expires_at. -/
theorem update_analysis_frame (st : DocumentStorage) (now : Nat) (id : String)
    (res : JDict) (h : (update_analysis st now id res).1 = true) :
    ∃ old, docGet? st.documents id = some old ∧
      (update_analysis st now id res).2.session_timeout = st.session_timeout ∧
      (update_analysis st now id res).2.documents.map Prod.fst =
        st.documents.map Prod.fst ∧
      docGet? (update_analysis st now id res).2.documents id =
        some { old with analysis_result := some res } ∧
      (∀ d, docGet? (update_analysis st now id res).2.documents id = some d →
        d.text = old.text ∧ d.filename = old.filename ∧
        d.created_at = old.created_at ∧ d.expires_at = old.expires_at ∧
        d.analysis_result = some res) ∧
      (∀ k, k ≠ id → docGet? (update_analysis st now id res).2.documents k =
        docGet? st.documents k) := by
  cases hget : docGet? st.documents id with
  | none =>
    rw [show update_analysis st now id res = (false, st) by
      simp [update_analysis, hget]] at h
    simp at h
  | some old =>
    by_cases hexp : now > old.expires_at
    · rw [show update_analysis st now id res =
          (false, { st with documents := docDel st.documents id }) by
        simp [update_analysis, hget, hexp]] at h
      simp at h
    · have hr : update_analysis st now id res =
          (true, { st with documents := st.documents.map (updEntry id res) }) := by
        simp [update_analysis, hget, hexp]
      refine ⟨old, rfl, ?_, ?_, ?_, ?_, ?_⟩
      · rw [hr]
      · rw [hr]
        simp only [List.map_map]
        exact List.map_congr_left (fun p _ => updEntry_fst id res p)
      · rw [hr]
        exact docGet?_map_upd_self st.documents id res old hget
      · intro d hd
        rw [hr] at hd
        rw [docGet?_map_upd_self st.documents id res old hget] at hd
        injection hd with hd2
        rw [← hd2]
        exact ⟨rfl, rfl, rfl, rfl, rfl⟩
      · intro k hk
        rw [hr]
        exact docGet?_map_upd_ne st.documents id res k hk

/-- Witness for C10 at a concrete successful update. -/
theorem update_analysis_frame_witness :
    ∃ old, docGet?
        [("d", ⟨"body", some "f.pdf", 0, 100, none⟩),
         ("e", ⟨"other", none, 1, 200, none⟩)] "d" = some old ∧
      (update_analysis
        ⟨[("d", ⟨"body", some "f.pdf", 0, 100, none⟩),
          ("e", ⟨"other", none, 1, 200, none⟩)], 3600⟩ 10 "d"
        [("summary", JVal.str "s")]).2.session_timeout = 3600 ∧
      (update_analysis
        ⟨[("d", ⟨"body", some "f.pdf", 0, 100, none⟩),
          ("e", ⟨"other", none, 1, 200, none⟩)], 3600⟩ 10 "d"
        [("summary", JVal.str "s")]).2.documents.map Prod.fst =
        ([("d", ⟨"body", some "f.pdf", 0, 100, none⟩),
          ("e", ⟨"other", none, 1, 200, none⟩)] :
            List (String × StoredDoc)).map Prod.fst ∧
      docGet? (update_analysis
        ⟨[("d", ⟨"body", some "f.pdf", 0, 100, none⟩),
          ("e", ⟨"other", none, 1, 200, none⟩)], 3600⟩ 10 "d"
        [("summary", JVal.str "s")]).2.documents "d" =
        some { old with analysis_result := some [("summary", JVal.str "s")] } ∧
      (∀ d, docGet? (update_analysis
        ⟨[("d", ⟨"body", some "f.pdf", 0, 100, none⟩),
          ("e", ⟨"other", none, 1, 200, none⟩)], 3600⟩ 10 "d"
        [("summary", JVal.str "s")]).2.documents "d" = some d →
        d.text = old.text ∧ d.filename = old.filename ∧
        d.created_at = old.created_at ∧ d.expires_at = old.expires_at ∧
        d.analysis_result = some [("summary", JVal.str "s")]) ∧
      (∀ k, k ≠ "d" → docGet? (update_analysis
        ⟨[("d", ⟨"body", some "f.pdf", 0, 100, none⟩),
          ("e", ⟨"other", none, 1, 200, none⟩)], 3600⟩ 10 "d"
        [("summary", JVal.str "s")]).2.documents k =
        docGet?
          [("d", ⟨"body", some "f.pdf", 0, 100, none⟩),
           ("e", ⟨"other", none, 1, 200, none⟩)] k) := by
  exact update_analysis_frame
    ⟨[("d", ⟨"body", some "f.pdf", 0, 100, none⟩),
      ("e", ⟨"other", none, 1, 200, none⟩)], 3600⟩ 10 "d"
    [("summary", JVal.str "s")] rfl

theorem orElseMsg_ne_empty (e : Option String) (d : String) (hd : d ≠ "") :
    orElseMsg e d ≠ "" := by
  cases e with
  | none => simpa [orElseMsg] using hd
  | some m =>
    by_cases hm : m = ""
    · simp only [orElseMsg, hm, if_pos]
      exact hd
    · simp only [orElseMsg, hm, if_neg]
      exact hm

theorem extract_text_cases (f : PdfFile) :
    extract_text f = (true, (extract_with_pdfplumber f.plumber).2.1, none) ∨
    extract_text f = (true, (extract_with_pypdf2 f.pypdf).2.1, none) ∨
    extract_text f =
      (false, "", some "Document appears to be empty or contains only images") ∨
    extract_text f =
      (false, "", some (orElseMsg (extract_with_pypdf2 f.pypdf).2.2
        "Failed to extract text from PDF")) := by
  simp only [extract_text]
  split
  · left; rfl
  · split
    · right; left; rfl
    · split
      · right; right; left; rfl
      · right; right; right; rfl

/-- C3 (amended): the file-like entry point extract_text surfaces every
extraction failure as a typed negative result (success false, empty text,
non-empty error string) and never raises; the raw-bytes entry point
extract_text_from_bytes instead signals failure by raising an exception
(as its own docstring states), modelled as the Except.error case, carrying
a non-empty message, and returns the extracted text directly on success. -/
theorem extract_failure_surfacing (f : PdfFile) :
    ((extract_text f).1 = false →
      (extract_text f).2.1 = "" ∧
      ∃ msg, (extract_text f).2.2 = some msg ∧ msg ≠ "") ∧
    (∀ e, extract_text_from_bytes f = Except.error e → e ≠ "") := by
  constructor
  · intro hs
    rcases extract_text_cases f with h | h | h | h
    · rw [h] at hs; simp at hs
    · rw [h] at hs; simp at hs
    · rw [h]
      exact ⟨rfl, "Document appears to be empty or contains only images",
        rfl, by decide⟩
    · rw [h]
      exact ⟨rfl, orElseMsg (extract_with_pypdf2 f.pypdf).2.2
        "Failed to extract text from PDF", rfl,
        orElseMsg_ne_empty _ _ (by decide)⟩
  · intro e h
    cases h1 : bytesAttempt f.plumber with
    | some t => simp [extract_text_from_bytes, h1] at h
    | none =>
      cases h2 : bytesAttempt f.pypdf with
      | some t => simp [extract_text_from_bytes, h1, h2] at h
      | none =>
        simp [extract_text_from_bytes, h1, h2] at h
        rw [← h]
        decide

/-- Witness for C3 (amended): a corrupt stream for the first library and
an empty page list for the second produce a typed negative triple from
extract_text, and the failing raw-bytes path raises with a non-empty
message. -/
theorem extract_failure_surfacing_witness :
    ((extract_text ⟨PdfOpenResult.corrupt "bad stream", PdfOpenResult.ok []⟩).2.1 = "" ∧
      ∃ msg, (extract_text
        ⟨PdfOpenResult.corrupt "bad stream", PdfOpenResult.ok []⟩).2.2 = some msg ∧
        msg ≠ "") ∧
    ("Failed to extract text from PDF: Document appears to be empty or contains only images" ≠ "") := by
  refine ⟨(extract_failure_surfacing
    ⟨PdfOpenResult.corrupt "bad stream", PdfOpenResult.ok []⟩).1 rfl, ?_⟩
  exact (extract_failure_surfacing ⟨PdfOpenResult.ok [], PdfOpenResult.ok []⟩).2
    "Failed to extract text from PDF: Document appears to be empty or contains only images" rfl

/-- Counterexample for C3 as stated: on a failing input the raw-bytes
entry point does not return a success flag with an error string; it
raises (Except.error), exactly as its docstring documents. -/
theorem extract_text_from_bytes_raises :
    extract_text_from_bytes ⟨PdfOpenResult.ok [], PdfOpenResult.ok []⟩ =
      Except.error
        "Failed to extract text from PDF: Document appears to be empty or contains only images" := by
  rfl

theorem pageBlock_congr {a b : Nat} {s t : String} (h1 : a = b) (h2 : s = t) :
    pageBlock a s = pageBlock b t := by
  rw [h1, h2]

theorem collectBlocks_length (l : List PageOutcome) :
    ∀ n, (collectBlocks l n).length = l.countP pageHasText := by
  induction l with
  | nil => intro n; rfl
  | cons p t ih =>
    intro n
    by_cases hp : pageHasText p = true
    · simp [collectBlocks, hp, List.countP_cons, ih (n + 1)]
    · simp [collectBlocks, hp, List.countP_cons, ih (n + 1)]

theorem collectBlocks_eq (l : List PageOutcome) :
    ∀ n, collectBlocks l n =
      ((List.range l.length).filter (fun i => isExtractableAt l i)).map
        (fun i => pageBlock (n + 1 + i) (pageTextAt l i)) := by
  induction l with
  | nil => intro n; rfl
  | cons p t ih =>
    intro n
    have hq : ∀ i ∈ List.range t.length,
        ((fun i => isExtractableAt (p :: t) i) ∘ Nat.succ) i =
        (fun i => isExtractableAt t i) i := by
      intro i _
      simp [isExtractableAt, List.getElem?_cons_succ]
    have htail : collectBlocks t (n + 1) =
        (((List.range t.length).map Nat.succ).filter
          (fun i => isExtractableAt (p :: t) i)).map
          (fun i => pageBlock (n + 1 + i) (pageTextAt (p :: t) i)) := by
      rw [List.filter_map, List.filter_congr hq, List.map_map, ih (n + 1)]
      refine List.map_congr_left (fun i hi => ?_)
      refine pageBlock_congr (by omega) ?_
      simp [pageTextAt, List.getElem?_cons_succ]
    rw [show collectBlocks (p :: t) n =
        (if pageHasText p then
          pageBlock (n + 1) (pageTextOf p) :: collectBlocks t (n + 1)
         else collectBlocks t (n + 1)) from rfl]
    rw [List.length_cons, List.range_succ_eq_map, List.filter_cons]
    by_cases hp : pageHasText p = true
    · rw [if_pos hp,
        if_pos (show (fun i => isExtractableAt (p :: t) i) 0 = true by
          simpa [isExtractableAt, List.getElem?_cons_zero] using hp),
        List.map_cons, htail]
      rw [show pageBlock (n + 1 + 0) (pageTextAt (p :: t) 0) =
          pageBlock (n + 1) (pageTextOf p) from
        pageBlock_congr (by omega)
          (by simp [pageTextAt, List.getElem?_cons_zero])]
    · rw [if_neg hp,
        if_neg (show ¬((fun i => isExtractableAt (p :: t) i) 0 = true) by
          simpa [isExtractableAt, List.getElem?_cons_zero] using hp),
        htail]

theorem collectBlocks_take_eq (pages : List PageOutcome) :
    collectBlocks (pages.take maxPages) 0 =
      ((List.range (min maxPages pages.length)).filter
        (fun i => isExtractableAt pages i)).map
        (fun i => pageBlock (i + 1) (pageTextAt pages i)) := by
  rw [collectBlocks_eq (pages.take maxPages) 0, List.length_take]
  have hfc : ∀ i ∈ List.range (min maxPages pages.length),
      (fun i => isExtractableAt (pages.take maxPages) i) i =
      (fun i => isExtractableAt pages i) i := by
    intro i hi
    have hilt : i < maxPages :=
      lt_of_lt_of_le (List.mem_range.mp hi) (min_le_left _ _)
    simp only [isExtractableAt]
    rw [List.getElem?_take, if_pos hilt]
  rw [List.filter_congr hfc]
  refine List.map_congr_left (fun i hi => ?_)
  have hilt : i < maxPages :=
    lt_of_lt_of_le (List.mem_range.mp (List.mem_of_mem_filter hi))
      (min_le_left _ _)
  refine pageBlock_congr (by omega) ?_
  simp only [pageTextAt]
  rw [List.getElem?_take, if_pos hilt]

/-- C7 (amended): on success, the text of _extract_with_pdfplumber is the
concatenation, separated by blank lines, of one marker-prefixed block per
extractable page among the first maxPages pages, in ascending source page
order; the number of markers equals the number of extractable pages among
the first maxPages pages (all extractable pages when the document has at
most maxPages pages).  A document with more than maxPages pages therefore
yields exactly maxPages markers only when all of its first maxPages pages
are extractable; a non-extractable page in that range lowers the count. -/
theorem extract_with_pdfplumber_markers (pages : List PageOutcome)
    (h : (extract_with_pdfplumber (PdfOpenResult.ok pages)).1 = true) :
    ∃ idxs : List Nat,
      idxs = (List.range (min maxPages pages.length)).filter
        (fun i => isExtractableAt pages i) ∧
      List.Sorted (· < ·) idxs ∧
      (extract_with_pdfplumber (PdfOpenResult.ok pages)).2.1 =
        String.intercalate "\n"
          (idxs.map (fun i => pageBlock (i + 1) (pageTextAt pages i))) ∧
      idxs.length = (pages.take maxPages).countP pageHasText ∧
      (pages.length ≤ maxPages → idxs.length = pages.countP pageHasText) := by
  have h1 : ((List.range (min maxPages pages.length)).filter
      (fun i => isExtractableAt pages i)).length =
      (pages.take maxPages).countP pageHasText := by
    have h2 := collectBlocks_length (pages.take maxPages) 0
    rw [collectBlocks_take_eq] at h2
    simpa using h2
  refine ⟨(List.range (min maxPages pages.length)).filter
    (fun i => isExtractableAt pages i), rfl, ?_, ?_, h1, fun hle => ?_⟩
  · exact List.Pairwise.sublist (List.filter_sublist _) (List.pairwise_lt_range _)
  · by_cases hc : (pyStrip (String.intercalate "\n"
        (collectBlocks (pages.take maxPages) 0))).length < minTextLength
    · exfalso
      rw [show extract_with_pdfplumber (PdfOpenResult.ok pages) =
          (false, "", some "No readable text found in PDF") by
        simp only [extract_with_pdfplumber]
        rw [if_pos hc]] at h
      simp at h
    · rw [show extract_with_pdfplumber (PdfOpenResult.ok pages) =
          (true, String.intercalate "\n" (collectBlocks (pages.take maxPages) 0),
            none) by
        simp only [extract_with_pdfplumber]
        rw [if_neg hc]]
      rw [collectBlocks_take_eq]
  · have h3 : pages.take maxPages = pages := List.take_of_length_le hle
    rw [h3] at h1
    exact h1

set_option maxRecDepth 10000 in
/-- Counterexample for C7 as stated: a 51-page document whose first page
has no extractable text still succeeds, but the returned text carries 49
page markers, not 50: only extractable pages among the first 50 receive a
marker. -/
theorem extract_over_cap_marker_counterexample :
    (PageOutcome.noText :: List.replicate 50 (PageOutcome.txt "ab")).length = 51 ∧
    (extract_with_pdfplumber (PdfOpenResult.ok
      (PageOutcome.noText :: List.replicate 50 (PageOutcome.txt "ab")))).1 = true ∧
    countOccurrences ("--- Page ").data
      ((extract_with_pdfplumber (PdfOpenResult.ok
        (PageOutcome.noText :: List.replicate 50 (PageOutcome.txt "ab")))).2.1).data
      = 49 := by
  refine ⟨by decide, by decide, by decide⟩

/-- Witness for C7 (amended) at a concrete one-page extractable document. -/
theorem extract_with_pdfplumber_markers_witness :
    ∃ idxs : List Nat,
      idxs = (List.range (min maxPages
        ([PageOutcome.txt "hello world page"] : List PageOutcome).length)).filter
        (fun i => isExtractableAt [PageOutcome.txt "hello world page"] i) ∧
      List.Sorted (· < ·) idxs ∧
      (extract_with_pdfplumber (PdfOpenResult.ok
        [PageOutcome.txt "hello world page"])).2.1 =
        String.intercalate "\n" (idxs.map (fun i =>
          pageBlock (i + 1) (pageTextAt [PageOutcome.txt "hello world page"] i))) ∧
      idxs.length = (([PageOutcome.txt "hello world page"] :
        List PageOutcome).take maxPages).countP pageHasText ∧
      (([PageOutcome.txt "hello world page"] : List PageOutcome).length ≤ maxPages →
        idxs.length = ([PageOutcome.txt "hello world page"] :
          List PageOutcome).countP pageHasText) :=
  extract_with_pdfplumber_markers [PageOutcome.txt "hello world page"] (by decide)
